import Mathlib

/-!
Verification model of the routing and reasoning-log subsystem of the
Gen_AI_POC customer-support demo (files `agent_router.py`,
`specialized_agents.py`, `main.py`).

Text is modelled as `List Char`.  Python's case folding, `in`-substring
tests and the `re` word-boundary searches used by the code (all patterns
of the shape `\b...\b` over `re.escape`d literals) are implemented
explicitly below, so that every definition is executable and the claims
can be evaluated on concrete inputs.
-/

/-- Python `\w` word characters (ASCII range, as exercised by the code's
ASCII keyword lists): letters, digits and underscore. -/
def isWordChar (c : Char) : Bool :=
  c.isAlphanum || c == '_'

/-- Python whitespace as matched by `str.strip` and `\s` (ASCII part). -/
def isPySpace (c : Char) : Bool :=
  c == ' ' || c == '\t' || c == '\n' || c == '\r' || c == '\x0b' || c == '\x0c'

/-- Python `str.lower` on the ASCII strings used throughout the code. -/
def lowerStr (s : List Char) : List Char :=
  s.map Char.toLower

/-- Whether position `i` of `s` holds a word character (out of range counts
as non-word, matching the regex treatment of the string edges). -/
def wordAt (s : List Char) (i : Nat) : Bool :=
  match s.get? i with
  | some c => isWordChar c
  | none => false

/-- Regex `\b` at position `i` of `s`: the word-character classification
changes between positions `i - 1` and `i` (edges are non-word). -/
def boundaryAt (s : List Char) (i : Nat) : Bool :=
  (decide (i ≠ 0) && wordAt s (i - 1)) != wordAt s i

/-- A match of the literal pattern `pat` at position `i` of `s` with `\b`
asserted on both sides, i.e. a match of `re.search(r'\b' + re.escape(pat)
+ r'\b', s)` anchored at `i`. -/
def wbMatchAt (pat s : List Char) (i : Nat) : Bool :=
  boundaryAt s i && pat.isPrefixOf (s.drop i) && boundaryAt s (i + pat.length)

/-- `re.search(r'\b' + re.escape(pat) + r'\b', s) is not None`. -/
def wbSearch (pat s : List Char) : Bool :=
  (List.range (s.length + 1)).any (fun i => wbMatchAt pat s i)

/-- Number of positions of `s` at which the word-bounded pattern `pat`
matches (used to state the per-occurrence reading of the spec). -/
def wbCount (pat s : List Char) : Nat :=
  ((List.range (s.length + 1)).filter (fun i => wbMatchAt pat s i)).length

/-- Python's `pat in s` substring test. -/
def isSubstr (pat s : List Char) : Bool :=
  (List.range (s.length + 1)).any (fun i => pat.isPrefixOf (s.drop i))

/-- A transaction record as read by the routing/handler code: every field
is accessed with `tx.get(key, "")`, so an absent field is the empty
string. -/
structure Transaction where
  merchant : List Char
  location : List Char
  status : List Char
  reason : List Char
deriving DecidableEq, Repr

/-- The context data the `RouterAgent` constructor receives that
`_analyze_context` actually reads: the recent transactions and the travel
notice's `countries` list (`travel_notice_data.get("countries", [])`). -/
structure RouterCtx where
  transactions : List Transaction
  noticeCountries : List (List Char)
deriving DecidableEq, Repr

/-- The `context_clues` dictionary produced by
`RouterAgent._analyze_context`, one integer score per handler that can
receive clues (an absent dictionary key reads as score 0, exactly as the
code's `context_clues.get(agent, 0)` does). -/
structure ContextClues where
  travelNotice : Nat
  transactionAnalysis : Nat
  cardServices : Nat
deriving DecidableEq, Repr

/-- First loop of `_analyze_context` (agent_router.py lines 451-461): for
each recent transaction whose lowered merchant or location matches the
lowered prompt as a word-bounded phrase, the TransactionAnalysisAgent
score becomes the max of its current value and 2 (Declined) or 1
(otherwise). -/
def transactionClue (txs : List Transaction) (p : List Char) : Nat :=
  txs.foldl
    (fun cur t =>
      if wbSearch (lowerStr t.merchant) p || wbSearch (lowerStr t.location) p then
        max cur (if lowerStr t.status = ("declined".toList) then 2 else 1)
      else cur)
    0

/-- Second loop of `_analyze_context` (lines 464-468): +2 per travel-notice
country whose lowered name occurs word-bounded in the prompt. -/
def countriesClue (countries : List (List Char)) (p : List Char) : Nat :=
  countries.foldl
    (fun acc c => if wbSearch (lowerStr c) p then acc + 2 else acc)
    0

/-- Lines 470-473 of `_analyze_context`: +3 when both `travel` and
`notice` occur as words. -/
def travelNoticePairClue (p : List Char) : Nat :=
  if wbSearch ("travel".toList) p && wbSearch ("notice".toList) p then 3 else 0

/-- Lines 476-479 of `_analyze_context`: +3 for CardServicesAgent when
both `lost` and `card` occur as words. -/
def lostCardClue (p : List Char) : Nat :=
  if wbSearch ("lost".toList) p && wbSearch ("card".toList) p then 3 else 0

/-- The fixed `travel_locations` list of `_analyze_context` (line 482). -/
def travelLocations : List (List Char) :=
  [("tokyo".toList), ("japan".toList), ("berlin".toList),
   ("germany".toList), ("barcelona".toList), ("spain".toList)]

/-- Last loop of `_analyze_context` (lines 483-487): +1 per entry of
`travel_locations` that occurs word-bounded in the prompt. -/
def travelLocationsClue (p : List Char) : Nat :=
  travelLocations.foldl
    (fun acc l => if wbSearch l p then acc + 1 else acc)
    0

/-- `RouterAgent._analyze_context(user_prompt)`: lower the prompt once and
accumulate the per-handler scores described above (additions to the same
dictionary key sum up; the transaction clue is max-combined inside
`transactionClue`). -/
def analyzeContext (ctx : RouterCtx) (prompt : List Char) : ContextClues :=
  let p := lowerStr prompt
  { travelNotice := countriesClue ctx.noticeCountries p + travelNoticePairClue p
      + travelLocationsClue p
    transactionAnalysis := transactionClue ctx.transactions p
    cardServices := lostCardClue p }

/-- The four handler identities in `RouterAgent.agents` order. -/
inductive Agent
  | travelNoticeAgent
  | transactionAnalysisAgent
  | cardServicesAgent
  | generalInquiryAgent
deriving DecidableEq, Repr

/-- The string identifier of each handler, as listed in `self.agents`. -/
def Agent.ident : Agent → List Char
  | .travelNoticeAgent => "TravelNoticeAgent".toList
  | .transactionAnalysisAgent => "TransactionAnalysisAgent".toList
  | .cardServicesAgent => "CardServicesAgent".toList
  | .generalInquiryAgent => "GeneralInquiryAgent".toList

/-- The membership test `selected_agent in self.agents`, returning which
of the four identifiers the string is (or none). -/
def agentOfIdent (s : List Char) : Option Agent :=
  [Agent.travelNoticeAgent, Agent.transactionAnalysisAgent,
   Agent.cardServicesAgent, Agent.generalInquiryAgent].find?
    (fun a => a.ident = s)

/-- Outcome of the completion call made by `RouterAgent.route`, as the
code distinguishes it: `apiError e` is `_make_groq_request` returning an
error string; otherwise the returned text is handed to `json.loads`,
which either raises `JSONDecodeError` (`okMalformed`), yields a value
that is not a JSON object — so the subsequent `result.get` raises an
uncaught `AttributeError` — (`okNonObject`), or yields an object whose
optional `agent` and `confidence` members are recorded (`okObject`; a
JSON number is modelled as a rational). -/
inductive RouteApiResult
  | apiError (msg : List Char)
  | okMalformed
  | okNonObject
  | okObject (agent : Option (List Char)) (confidence : Option Rat)
deriving DecidableEq

/-- The parts of the `reasoning_log` built by `RouterAgent.route` that
the claims speak about: the selected handler, the rebuilt
`confidence_scores` dictionary (a value for each of the four handlers)
and the stashed `context_analysis`. -/
structure RoutingDecision where
  finalAgent : Agent
  confidenceScores : Agent → Rat
  contextAnalysis : ContextClues

/-- A `confidence_scores` dictionary `agent: 0.0 for agent in self.agents`
with one entry overwritten, as every assignment path of `route` builds. -/
def scoresFor (sel : Agent) (conf : Rat) : Agent → Rat :=
  fun a => if a = sel then conf else 0

/-- `RouterAgent.route(user_prompt)` (agent_router.py lines 295-369),
as a function of the completion-call outcome.  `none` models the one
path on which the Python method raises instead of returning: a response
that parses as JSON but is not an object, whose `result.get("agent",...)`
raises `AttributeError`, which the `except json.JSONDecodeError` clause
does not catch. -/
def route (ctx : RouterCtx) (prompt : List Char) (outcome : RouteApiResult) :
    Option RoutingDecision :=
  let ca := analyzeContext ctx prompt
  match outcome with
  | .apiError _ =>
      some { finalAgent := .generalInquiryAgent
             confidenceScores := scoresFor .generalInquiryAgent (1/2)
             contextAnalysis := ca }
  | .okMalformed =>
      some { finalAgent := .generalInquiryAgent
             confidenceScores := scoresFor .generalInquiryAgent (1/2)
             contextAnalysis := ca }
  | .okNonObject => none
  | .okObject agentField confField =>
      let name := agentField.getD ("GeneralInquiryAgent".toList)
      match agentOfIdent name with
      | some sel =>
          some { finalAgent := sel
                 confidenceScores := scoresFor sel (confField.getD (1/2))
                 contextAnalysis := ca }
      | none =>
          some { finalAgent := .generalInquiryAgent
                 confidenceScores := scoresFor .generalInquiryAgent (1/2)
                 contextAnalysis := ca }

/-- The four intents of `TravelNoticeAgent._determine_intent`. -/
inductive TNIntent
  | activateNotice
  | createNotice
  | updateNotice
  | checkStatus
deriving DecidableEq, Repr

/-- The alternatives of the activation regex
`\b(activate|fix|enable|reactivate|confirm it[']?s active)\b`
(specialized_agents.py line 782); the optional apostrophe gives the last
alternative two spellings. -/
def activateAlts : List (List Char) :=
  [("activate".toList), ("fix".toList), ("enable".toList), ("reactivate".toList),
   ("confirm it\x27s active".toList), ("confirm its active".toList)]

/-- Search for `\b(p1).*(p2)\b` built by splicing a `create_keywords`
entry such as `add.*notice` into `r'\b' + keyword + r'\b'` (line 790):
a word boundary before a literal `p1`, any gap free of newlines, then a
literal `p2` followed by a word boundary. -/
def wbGapSearch (p1 p2 s : List Char) : Bool :=
  (List.range (s.length + 1)).any (fun i =>
    boundaryAt s i && p1.isPrefixOf (s.drop i) &&
    (List.range (s.length + 1)).any (fun j =>
      decide (i + p1.length ≤ j) && p2.isPrefixOf (s.drop j) &&
      boundaryAt s (j + p2.length) &&
      ((s.drop (i + p1.length)).take (j - (i + p1.length))).all (fun c => c != '\n')))

/-- The `create_keywords` test of `_determine_intent` (lines 789-790);
three entries embed a `.*` gap, the rest are literal keywords. -/
def createKeywordHit (p : List Char) : Bool :=
  wbSearch ("create".toList) p || wbSearch ("set up".toList) p ||
  wbSearch ("new".toList) p || wbGapSearch ("add".toList) ("notice".toList) p ||
  wbGapSearch ("submit".toList) ("notice".toList) p ||
  wbGapSearch ("inform".toList) ("travel".toList) p ||
  wbSearch ("going to".toList) p

/-- The update regex
`\b(update|change|modify|edit|add countries|remove countries|extend|shorten)\b`
(line 795). -/
def updateKeywordHit (p : List Char) : Bool :=
  [("update".toList), ("change".toList), ("modify".toList), ("edit".toList),
   ("add countries".toList), ("remove countries".toList), ("extend".toList),
   ("shorten".toList)].any (fun k => wbSearch k p)

/-- The guard inside the activation branch (line 783): the prompt contains
the substring `activate travel` and none of the substrings `fix`,
`enable`, `confirm`, in which case the branch `pass`es instead of
returning `activate_notice`. -/
def activateTravelCarveOut (p : List Char) : Bool :=
  isSubstr ("activate travel".toList) p &&
  !([("fix".toList), ("enable".toList), ("confirm".toList)].any
      (fun k => isSubstr k p))

/-- `TravelNoticeAgent._determine_intent(user_prompt)` (lines 777-800):
activation keywords first (subject to the `activate travel` carve-out),
then create keywords (unless update words are present), then update
keywords, else `check_status`. -/
def determineTNIntent (prompt : List Char) : TNIntent :=
  let p := lowerStr prompt
  if activateAlts.any (fun a => wbSearch a p) && !activateTravelCarveOut p then
    .activateNotice
  else if createKeywordHit p &&
      !([("update".toList), ("change".toList), ("modify".toList),
         ("edit".toList)].any (fun k => wbSearch k p)) then
    .createNotice
  else if updateKeywordHit p then
    .updateNotice
  else
    .checkStatus

/-- A calendar date, compared the way `datetime.date` compares. -/
structure Date where
  year : Nat
  month : Nat
  day : Nat
deriving DecidableEq, Repr

/-- `datetime.date` order: lexicographic on (year, month, day). -/
def Date.le (a b : Date) : Bool :=
  a.year < b.year || (a.year = b.year &&
    (a.month < b.month || (a.month = b.month && a.day ≤ b.day)))

/-- Strict `datetime.date` order. -/
def Date.lt (a b : Date) : Bool :=
  a.year < b.year || (a.year = b.year &&
    (a.month < b.month || (a.month = b.month && a.day < b.day)))

/-- Full month names recognised by `strptime`'s `%B` (matched
case-insensitively; the input is lowered before matching). -/
def monthNames : List (List Char) :=
  [("january".toList), ("february".toList), ("march".toList), ("april".toList),
   ("may".toList), ("june".toList), ("july".toList), ("august".toList),
   ("september".toList), ("october".toList), ("november".toList),
   ("december".toList)]

/-- Try each month name as a literal head of `s`, returning the month
number and the rest (no month name is a head of another, so the first
hit is the only one). -/
def matchMonthAux : List (List Char) → Nat → List Char → Option (Nat × List Char)
  | [], _, _ => none
  | n :: ns, i, s =>
      if n.isPrefixOf s then some (i, s.drop n.length)
      else matchMonthAux ns (i + 1) s

/-- Month matcher for `%B`. -/
def matchMonth (s : List Char) : Option (Nat × List Char) :=
  matchMonthAux monthNames 1 s

/-- Value of an ASCII digit. -/
def digitVal (c : Char) : Option Nat :=
  if c.isDigit then some (c.toNat - 48) else none

/-- `strptime`'s `%d` pattern `(3[01]|[12]\d|0[1-9]|[1-9])`: candidate
(day, rest) parses in the order the regex alternation tries them —
two-digit forms first, then a single digit 1-9.  Listing both lets the
caller replay the regex backtracking. -/
def dayCands : List Char → List (Nat × List Char)
  | c1 :: c2 :: rest =>
      (match digitVal c1, digitVal c2 with
       | some d1, some d2 =>
           (if (d1 = 3 && d2 ≤ 1) || (1 ≤ d1 && d1 ≤ 2) || (d1 = 0 && 1 ≤ d2) then
              [(10 * d1 + d2, rest)]
            else []) ++
           (if 1 ≤ d1 && d1 ≤ 9 then [(d1, c2 :: rest)] else [])
       | some d1, none => if 1 ≤ d1 && d1 ≤ 9 then [(d1, c2 :: rest)] else []
       | none, _ => [])
  | [c1] =>
      (match digitVal c1 with
       | some d1 => if 1 ≤ d1 && d1 ≤ 9 then [(d1, [])] else []
       | none => [])
  | [] => []

/-- Whitespace in a `strptime` format matches one or more whitespace
characters: strip them, requiring at least one. -/
def stripSpaces1 (s : List Char) : Option (List Char) :=
  match s with
  | c :: rest => if isPySpace c then some (rest.dropWhile isPySpace) else none
  | [] => none

/-- `%Y` at the end of the format: exactly four digits and then the end
of the string (strptime rejects trailing text). -/
def yearAtEnd (s : List Char) : Option Nat :=
  match s with
  | [a, b, c, d] =>
      match digitVal a, digitVal b, digitVal c, digitVal d with
      | some x, some y, some z, some w => some (1000 * x + 100 * y + 10 * z + w)
      | _, _, _, _ => none
  | _ => none

/-- Gregorian leap year, as `datetime.date` validates days. -/
def isLeap (y : Nat) : Bool :=
  y % 4 = 0 && (y % 100 ≠ 0 || y % 400 = 0)

/-- Days in a month, as `datetime.date` validates the day field. -/
def daysInMonth (y m : Nat) : Nat :=
  if m = 2 then (if isLeap y then 29 else 28)
  else if m = 4 || m = 6 || m = 9 || m = 11 then 30
  else 31

/-- `datetime.datetime.strptime(s, "%B %d, %Y").date()`, returning `none`
where Python raises `ValueError`: month name, whitespace, day, comma,
whitespace, four-digit year, end of input, and a day valid for the month
(year 0000 is below `datetime.MINYEAR`). -/
def parseNoticeDate (s : List Char) : Option Date :=
  match matchMonth (lowerStr s) with
  | none => none
  | some (m, rest) =>
      match stripSpaces1 rest with
      | none => none
      | some rest2 =>
          (dayCands rest2).findSome? (fun dc =>
            match dc.2 with
            | ',' :: rest3 =>
                match stripSpaces1 rest3 with
                | none => none
                | some rest4 =>
                    match yearAtEnd rest4 with
                    | none => none
                    | some y =>
                        if 1 ≤ y && dc.1 ≤ daysInMonth y m then
                          some { year := y, month := m, day := dc.1 }
                        else none
            | _ => none)

/-- The travel-notice record as the handler reads it: `countries` via
`.get('countries', [])`, the date strings via `.get(..., '')` (absent is
the empty string, which the code treats the same way), and `status` as an
optional member, since the code distinguishes `.get('status')` (`None`
when absent) from `.get('status', 'Unknown')`. -/
structure TravelNotice where
  countries : List (List Char)
  travelStart : List Char
  travelEnd : List Char
  status : Option (List Char)
deriving DecidableEq, Repr

/-- The distinguished faulty-activation status string. -/
def sysErrStatus : List Char :=
  "Submitted but not activated due to system error".toList

/-- `TravelNoticeAgent._check_active_notice` (lines 830-858), with
`datetime.date.today()` passed in as `today`: no countries means no
active notice; a missing start or end date, or a `ValueError` from
`strptime`, short-circuits to `bool(countries)`; otherwise the notice is
active when today is inside the date range or the start date is in the
future, and the lowered status contains `active` or `submitted`. -/
def checkActiveNotice (today : Date) (tn : TravelNotice) : Bool :=
  if tn.countries.isEmpty then false
  else if tn.travelStart.isEmpty || tn.travelEnd.isEmpty then
    !tn.countries.isEmpty
  else
    match parseNoticeDate tn.travelStart with
    | none => !tn.countries.isEmpty
    | some startDate =>
        match parseNoticeDate tn.travelEnd with
        | none => !tn.countries.isEmpty
        | some endDate =>
            let st := lowerStr (tn.status.getD ("Unknown".toList))
            (Date.le startDate today && Date.le today endDate ||
              Date.lt today startDate) &&
            (isSubstr ("active".toList) st || isSubstr ("submitted".toList) st)

/-- Python `str.title()`: the first letter of each alphabetic run is
uppercased and the rest lowercased (`prev` records whether the previous
character was alphabetic). -/
def pyTitleAux : Bool → List Char → List Char
  | _, [] => []
  | prev, c :: rest =>
      (if c.isAlpha && !prev then c.toUpper
       else if c.isAlpha then c.toLower else c) :: pyTitleAux c.isAlpha rest

/-- Python `str.title()`. -/
def pyTitle (s : List Char) : List Char :=
  pyTitleAux false s

/-- The `country_keywords` list of
`TravelNoticeAgent._extract_countries` (lines 807-816). -/
def countryKeywords : List (List Char) :=
  [("japan".toList), ("tokyo".toList), ("osaka".toList), ("germany".toList),
   ("berlin".toList), ("munich".toList), ("spain".toList),
   ("barcelona".toList), ("madrid".toList), ("france".toList),
   ("paris".toList), ("nice".toList), ("italy".toList), ("rome".toList),
   ("milan".toList), ("usa".toList), ("us".toList),
   ("united states".toList), ("america".toList), ("uk".toList),
   ("united kingdom".toList), ("london".toList), ("england".toList),
   ("scotland".toList), ("canada".toList), ("mexico".toList),
   ("australia".toList)]

/-- Normalisation applied to a matched country keyword (lines 818-824). -/
def normCountry (k : List Char) : List Char :=
  if [("usa".toList), ("us".toList), ("united states".toList),
      ("america".toList)].contains k then ("USA".toList)
  else if [("uk".toList), ("united kingdom".toList), ("england".toList),
           ("scotland".toList)].contains k then ("UK".toList)
  else pyTitle k

/-- `TravelNoticeAgent._extract_countries(user_prompt)` (lines 802-828):
each keyword found word-bounded in the lowered prompt contributes its
normalised name once, in keyword-list order. -/
def extractCountries (prompt : List Char) : List (List Char) :=
  countryKeywords.foldl
    (fun acc k =>
      if wbSearch k (lowerStr prompt) then
        (if acc.contains (normCountry k) then acc else acc ++ [normCountry k])
      else acc)
    []

/-- The response branch taken by `TravelNoticeAgent._process_rule_based`
(one constructor per templated response of lines 576-726; the natural
language text itself is presentation detail). -/
inductive TNResponse
  | statusActiveOk
  | statusActiveNeedsFix
  | statusNoNotice
  | createHasNotice
  | createNew
  | updateHasNotice
  | updateNoNotice
  | activatedFix
  | alreadyActive
  | nothingToActivate
deriving DecidableEq, Repr

/-- Result of one `_process_rule_based` call on the travel-notice
handler: the branch taken, the `next_best_actions` titles this call adds,
and the travel-notice record afterwards (the method mutates
`self.travel_notice_data['status']` in exactly one branch). -/
structure TravelStep where
  resp : TNResponse
  nextBest : List (List Char)
  notice : TravelNotice
deriving DecidableEq, Repr

/-- The `known_countries` list of the post-intent mismatch pass
(line 739). -/
def knownCountries : List (List Char) :=
  [("japan".toList), ("germany".toList), ("spain".toList), ("usa".toList),
   ("france".toList), ("italy".toList), ("uk".toList)]

/-- The post-intent mismatch scan (lines 734-749), evaluated on the
notice countries: some declined transaction is located in a known country
not covered by the notice and its reason mentions travel, location,
security block or unusual activity. -/
def mismatchFound (countries : List (List Char)) (txs : List Transaction) : Bool :=
  txs.any (fun tx =>
    lowerStr tx.status = ("declined".toList) &&
    (match knownCountries.find? (fun c => isSubstr c (lowerStr tx.location)) with
     | some c =>
         !(countries.map lowerStr).contains c &&
         ([("travel".toList), ("location".toList), ("security block".toList),
           ("unusual activity".toList)].any
             (fun k => isSubstr k (lowerStr tx.reason)))
     | none => false))

/-- `TravelNoticeAgent._process_rule_based(user_prompt)` (lines 556-775)
at the granularity of the claims: intent classification, the active-notice
check, the per-intent branch (including the in-place status mutation of
the `activate_notice` fix branch, lines 702-703), and the post-intent
mismatch pass, which reads the possibly mutated status but the
pre-branch `active_notice` flag and can append one more action. -/
def processTravelRuleBased (today : Date) (txs : List Transaction)
    (tn : TravelNotice) (prompt : List Char) : TravelStep :=
  let intent := determineTNIntent prompt
  let active := checkActiveNotice today tn
  let needsFix := active && tn.status = some sysErrStatus
  let step : TravelStep :=
    match intent with
    | .checkStatus =>
        if active then
          if needsFix then
            { resp := .statusActiveNeedsFix
              nextBest := [("Fix & Activate Notice".toList)], notice := tn }
          else
            { resp := .statusActiveOk
              nextBest := [("View Notice Details".toList)], notice := tn }
        else
          { resp := .statusNoNotice
            nextBest := [("Create Travel Notice".toList)], notice := tn }
    | .createNotice =>
        if active then
          { resp := .createHasNotice
            nextBest := [("Update Existing Notice".toList),
                         ("Cancel Existing Notice".toList)], notice := tn }
        else
          { resp := .createNew
            nextBest := [if (extractCountries prompt).isEmpty then
                           ("Provide Travel Details".toList)
                         else ("Confirm Countries for Notice".toList)]
            notice := tn }
    | .updateNotice =>
        if active then
          { resp := .updateHasNotice
            nextBest :=
              [if ((extractCountries prompt).filter
                    (fun c => !tn.countries.contains c)).isEmpty then
                 (if ((extractCountries prompt).filter
                       (fun c => tn.countries.contains c)).isEmpty then
                    ("Specify Notice Changes".toList)
                  else ("Update Travel Dates".toList))
               else ("Add Countries to Notice".toList)]
            notice := tn }
        else
          { resp := .updateNoNotice
            nextBest := [("Create Travel Notice".toList)], notice := tn }
    | .activateNotice =>
        if needsFix then
          { resp := .activatedFix
            nextBest := [("Confirm Recent Declines Resolved".toList)]
            notice := { tn with status := some ("Active".toList) } }
        else if active then
          { resp := .alreadyActive, nextBest := [], notice := tn }
        else
          { resp := .nothingToActivate
            nextBest := [("Create Travel Notice".toList)], notice := tn }
  if active && lowerStr (step.notice.status.getD []) = ("active".toList) &&
      mismatchFound step.notice.countries txs then
    { step with nextBest := step.nextBest ++ [("Add Country to Notice".toList)] }
  else step

/-- The `status` field of the dictionary built by
`CardServicesAgent._get_card_info` (lines 1158-1178): it starts as
`active` and flips to `reported lost` as soon as some recent
transaction's lowered reason contains the substring
`card reported lost` or `stolen`.  The other fields of the dictionary
are constants copied from the customer profile and are read by no
claim. -/
def inferredCardStatus (txs : List Transaction) : List Char :=
  if txs.any (fun tx =>
      isSubstr ("card reported lost".toList) (lowerStr tx.reason) ||
      isSubstr ("stolen".toList) (lowerStr tx.reason)) then
    ("reported lost".toList)
  else ("active".toList)

/-- Result of the `report_lost_stolen` branch of
`CardServicesAgent._process_rule_based` (lines 994-1028): whether the
already-reported (replacement-offer) response was produced, the
`actions_taken` names and the `next_best_actions` titles the call adds.
The branch mutates only the local `card_info` dictionary, so the
handler's context is unchanged by the call. -/
structure CardLostStep where
  alreadyReported : Bool
  actionsTaken : List (List Char)
  nextBest : List (List Char)
deriving DecidableEq, Repr

/-- The `report_lost_stolen` branch of
`CardServicesAgent._process_rule_based`, as a function of the recent
transactions from which `_get_card_info` infers the card status. -/
def processReportLostStolen (txs : List Transaction) : CardLostStep :=
  let status := inferredCardStatus txs
  if lowerStr status = ("reported lost".toList) ||
      lowerStr status = ("stolen".toList) then
    { alreadyReported := true
      actionsTaken := [("Lost/Stolen Report Skipped".toList)]
      nextBest := [("Order Replacement Card".toList)] }
  else
    { alreadyReported := false
      actionsTaken := [("Report Card Lost/Stolen".toList)]
      nextBest := [("Verify Shipping Address".toList),
                   ("Offer Digital Card Access".toList),
                   ("Review Recent Transactions (Security)".toList)] }

/-- The sentiment dictionary assembled in `analyze_with_groq`
(main.py); a JSON number is modelled as a rational. -/
structure SentimentResult where
  sentiment : List Char
  confidence : Rat
  emotions : List (List Char)
  keyPoints : List (List Char)
deriving DecidableEq, Repr

/-- The fallback sentiment value of main.py lines 154, 163 and 215. -/
def defaultSentiment : SentimentResult :=
  { sentiment := ("NEUTRAL".toList), confidence := 1/2
    emotions := [], keyPoints := [] }

/-- One recommended action as assembled in `analyze_with_groq`. -/
structure RecommendedAction where
  action : List Char
  description : List Char
  priority : List Char
  category : List Char
deriving DecidableEq, Repr

/-- The fallback action of main.py lines 237-243 and 252-258 (the emoji
icon field is display detail). -/
def followUpCallAction : RecommendedAction :=
  { action := ("Follow-up Call".toList)
    description := ("Schedule a follow-up call to address the issue manually.".toList)
    priority := ("High".toList)
    category := ("Customer Support".toList) }

/-- Outcome of one `make_groq_request`-plus-`json.loads` stage of
`analyze_with_groq`: the request returned an error, or its text failed
to parse as JSON, or it parsed to a usable value. -/
inductive StageResult (α : Type)
  | failure (err : List Char)
  | badJson
  | success (value : α)
deriving DecidableEq

/-- Whether a stage did not produce a parsed value. -/
def StageResult.isFailed : StageResult α → Bool
  | .success _ => false
  | _ => true

/-- The sentiment-and-actions skeleton of `analyze_with_groq` (main.py
lines 45-291), as a function of the stage outcomes: a blank transcript
returns the initial empty sentiment (`none`) and no actions (lines
57-62); otherwise the sentiment stage's failure paths substitute
`defaultSentiment` (lines 151-163), an exception escaping
`agent.process` resets the sentiment to the same default (lines
212-215), and the action stage's failure paths substitute the single
follow-up action (lines 234-258). -/
def analyzeWithGroq (transcript : List Char)
    (sentimentStage : StageResult SentimentResult)
    (agentRaises : Bool)
    (actionStage : StageResult (List RecommendedAction)) :
    Option SentimentResult × List RecommendedAction :=
  if transcript.all isPySpace then (none, [])
  else
    let s :=
      match sentimentStage with
      | .failure _ => defaultSentiment
      | .badJson => defaultSentiment
      | .success v => v
    let s2 := if agentRaises then defaultSentiment else s
    let acts :=
      match actionStage with
      | .failure _ => [followUpCallAction]
      | .badJson => [followUpCallAction]
      | .success v => v
    (some s2, acts)

theorem wordAt_append_of_nonword {c : Char} (hc : isWordChar c = false)
    (s t : List Char) (j : Nat) (hj : j ≤ s.length) :
    wordAt (s ++ c :: t) j = wordAt s j := by
  rcases Nat.lt_or_ge j s.length with h | h
  · simp only [wordAt, List.get?_append h]
  · have hj' : j = s.length := Nat.le_antisymm hj h
    subst hj'
    simp only [wordAt, List.get?_append_right (Nat.le_refl _), Nat.sub_self,
      List.get?, List.get?_eq_none.mpr (Nat.le_refl _)]
    exact hc

theorem boundaryAt_append_of_nonword {c : Char} (hc : isWordChar c = false)
    (s t : List Char) (j : Nat) (hj : j ≤ s.length) :
    boundaryAt (s ++ c :: t) j = boundaryAt s j := by
  simp only [boundaryAt,
    wordAt_append_of_nonword hc s t j hj,
    wordAt_append_of_nonword hc s t (j - 1) (Nat.le_trans (Nat.sub_le _ _) hj)]

theorem wbMatchAt_append_of_nonword {c : Char} (hc : isWordChar c = false)
    {pat s : List Char} (t : List Char) {i : Nat} (hi : i ≤ s.length)
    (h : wbMatchAt pat s i = true) :
    wbMatchAt pat (s ++ c :: t) i = true := by
  simp only [wbMatchAt, Bool.and_eq_true] at h ⊢
  obtain ⟨⟨hb1, hpre⟩, hb2⟩ := h
  have hlen : pat.length ≤ s.length - i :=
    le_trans (List.isPrefixOf_iff_prefix.mp hpre).length_le
      (by rw [List.length_drop])
  have hend : i + pat.length ≤ s.length := by omega
  refine ⟨⟨?_, ?_⟩, ?_⟩
  · rw [boundaryAt_append_of_nonword hc s t i hi]; exact hb1
  · rw [List.drop_append_of_le_length hi]
    exact List.isPrefixOf_iff_prefix.mpr
      ((List.isPrefixOf_iff_prefix.mp hpre).trans (List.prefix_append _ _))
  · rw [boundaryAt_append_of_nonword hc s t _ hend]; exact hb2

theorem wbSearch_append_of_nonword {c : Char} (hc : isWordChar c = false)
    {pat s : List Char} (t : List Char) (h : wbSearch pat s = true) :
    wbSearch pat (s ++ c :: t) = true := by
  simp only [wbSearch, List.any_eq_true, List.mem_range] at h ⊢
  obtain ⟨i, hi, hm⟩ := h
  have hi' : i ≤ s.length := Nat.lt_succ_iff.mp hi
  exact ⟨i, by simp only [List.length_append]; omega,
    wbMatchAt_append_of_nonword hc t hi' hm⟩

theorem foldl_add_if_mono {α : Type} (f g : α → Bool) (k : Nat) :
    ∀ (xs : List α) (a b : Nat), a ≤ b → (∀ x ∈ xs, f x = true → g x = true) →
      xs.foldl (fun acc x => if f x then acc + k else acc) a ≤
        xs.foldl (fun acc x => if g x then acc + k else acc) b := by
  intro xs
  induction xs with
  | nil => intro a b hab _; exact hab
  | cons x xs ih =>
      intro a b hab hfg
      simp only [List.foldl_cons]
      apply ih
      · by_cases hf : f x = true
        · rw [if_pos hf, if_pos (hfg x (List.mem_cons_self x xs) hf)]; omega
        · rw [if_neg hf]
          by_cases hg : g x = true
          · rw [if_pos hg]; omega
          · rw [if_neg hg]; exact hab
      · intro y hy; exact hfg y (List.mem_cons_of_mem x hy)

theorem countriesClue_mono {c : Char} (hc : isWordChar c = false)
    (countries : List (List Char)) (p t : List Char) :
    countriesClue countries p ≤ countriesClue countries (p ++ c :: t) := by
  exact foldl_add_if_mono _ _ 2 countries 0 0 (Nat.le_refl 0)
    (fun x _ hx => wbSearch_append_of_nonword hc t hx)

theorem travelLocationsClue_mono {c : Char} (hc : isWordChar c = false)
    (p t : List Char) :
    travelLocationsClue p ≤ travelLocationsClue (p ++ c :: t) := by
  exact foldl_add_if_mono _ _ 1 travelLocations 0 0 (Nat.le_refl 0)
    (fun x _ hx => wbSearch_append_of_nonword hc t hx)

theorem travelNoticePairClue_mono {c : Char} (hc : isWordChar c = false)
    (p t : List Char) :
    travelNoticePairClue p ≤ travelNoticePairClue (p ++ c :: t) := by
  unfold travelNoticePairClue
  by_cases h : (wbSearch ("travel".toList) p && wbSearch ("notice".toList) p) = true
  · have h' := Bool.and_eq_true _ _ |>.mp h
    have h1 := wbSearch_append_of_nonword hc t h'.1
    have h2 := wbSearch_append_of_nonword hc t h'.2
    rw [if_pos h, if_pos (by rw [h1, h2]; rfl)]
  · rw [if_neg h]
    split
    · omega
    · omega

theorem lowerStr_append (p q : List Char) :
    lowerStr (p ++ q) = lowerStr p ++ lowerStr q := by
  simp [lowerStr]

/-- C2: in `_analyze_context`, appending one more matching
travel-destination keyword (separated by a space) to the query never
decreases the TravelNoticeAgent context score, and for the same mentioned
merchant/location a Declined transaction yields TransactionAnalysisAgent
context score 2 while the same transaction Approved yields 1, so the
Declined score is greater than or equal to the Approved one. -/
theorem claim_C2_context_score_monotonicity
    (ctx : RouterCtx) (p kw : List Char) (hkw : kw ∈ travelLocations)
    (cs : List (List Char)) (m l r q : List Char)
    (hm : (wbSearch (lowerStr m) (lowerStr q) ||
           wbSearch (lowerStr l) (lowerStr q)) = true) :
    (analyzeContext ctx p).travelNotice ≤
      (analyzeContext ctx (p ++ ' ' :: kw)).travelNotice ∧
    (analyzeContext ⟨[⟨m, l, ("Declined".toList), r⟩], cs⟩ q).transactionAnalysis = 2 ∧
    (analyzeContext ⟨[⟨m, l, ("Approved".toList), r⟩], cs⟩ q).transactionAnalysis = 1 ∧
    (analyzeContext ⟨[⟨m, l, ("Approved".toList), r⟩], cs⟩ q).transactionAnalysis ≤
      (analyzeContext ⟨[⟨m, l, ("Declined".toList), r⟩], cs⟩ q).transactionAnalysis := by
  have hsp : isWordChar ' ' = false := by decide
  have hlow : lowerStr (p ++ ' ' :: kw) = lowerStr p ++ ' ' :: lowerStr kw := by
    have h1 : Char.toLower ' ' = ' ' := by decide
    simp [lowerStr, h1]
  have hdec : (analyzeContext ⟨[⟨m, l, ("Declined".toList), r⟩], cs⟩
      q).transactionAnalysis = 2 := by
    simp only [analyzeContext, transactionClue, List.foldl_cons, List.foldl_nil]
    rw [if_pos hm]
    have hst : lowerStr ("Declined".toList) = ("declined".toList) := by decide
    rw [if_pos hst]
    decide
  have happ : (analyzeContext ⟨[⟨m, l, ("Approved".toList), r⟩], cs⟩
      q).transactionAnalysis = 1 := by
    simp only [analyzeContext, transactionClue, List.foldl_cons, List.foldl_nil]
    rw [if_pos hm]
    have hst : ¬ (lowerStr ("Approved".toList) = ("declined".toList)) := by decide
    rw [if_neg hst]
    decide
  refine ⟨?_, hdec, happ, by omega⟩
  simp only [analyzeContext, hlow]
  exact Nat.add_le_add
    (Nat.add_le_add (countriesClue_mono hsp _ _ _) (travelNoticePairClue_mono hsp _ _))
    (travelLocationsClue_mono hsp _ _)

/-- Witness for C2: a concrete instantiation — appending ` japan` to a
query, and a Starbucks transaction mentioned by merchant name. -/
theorem claim_C2_context_score_monotonicity_witness :
    (analyzeContext ⟨[], [("france".toList)]⟩ ("i am travelling".toList)).travelNotice ≤
      (analyzeContext ⟨[], [("france".toList)]⟩
        (("i am travelling".toList) ++ ' ' :: ("japan".toList))).travelNotice ∧
    (analyzeContext ⟨[⟨("Starbucks".toList), ("Tokyo".toList), ("Declined".toList),
        ("x".toList)⟩], []⟩ ("my starbucks payment".toList)).transactionAnalysis = 2 ∧
    (analyzeContext ⟨[⟨("Starbucks".toList), ("Tokyo".toList), ("Approved".toList),
        ("x".toList)⟩], []⟩ ("my starbucks payment".toList)).transactionAnalysis = 1 ∧
    (analyzeContext ⟨[⟨("Starbucks".toList), ("Tokyo".toList), ("Approved".toList),
        ("x".toList)⟩], []⟩ ("my starbucks payment".toList)).transactionAnalysis ≤
      (analyzeContext ⟨[⟨("Starbucks".toList), ("Tokyo".toList), ("Declined".toList),
        ("x".toList)⟩], []⟩ ("my starbucks payment".toList)).transactionAnalysis :=
  claim_C2_context_score_monotonicity ⟨[], [("france".toList)]⟩
    ("i am travelling".toList) ("japan".toList) (by decide) []
    ("Starbucks".toList) ("Tokyo".toList) ("x".toList)
    ("my starbucks payment".toList) (by decide)

theorem foldl_add_if_eq_filter_length {α : Type} (f : α → Bool) :
    ∀ (xs : List α) (n : Nat),
      xs.foldl (fun acc x => if f x then acc + 1 else acc) n =
        n + (xs.filter f).length := by
  intro xs
  induction xs with
  | nil => intro n; simp
  | cons x xs ih =>
      intro n
      by_cases hx : f x = true
      · simp [List.foldl_cons, List.filter_cons, hx, ih]; omega
      · simp [List.foldl_cons, List.filter_cons, hx, ih]

/-- C3 counterexample: the query `tokyo tokyo` contains two word-bounded
occurrences of the destination `tokyo`, yet the TravelNoticeAgent
context score (no notice countries, no other clue) is 1, not the 2 the
per-occurrence claim predicts. -/
theorem claim_C3_counterexample :
    wbCount ("tokyo".toList) (lowerStr ("tokyo tokyo".toList)) = 2 ∧
    (analyzeContext ⟨[], []⟩ ("tokyo tokyo".toList)).travelNotice = 1 ∧
    (analyzeContext ⟨[], []⟩ ("tokyo tokyo".toList)).travelNotice ≠ 2 := by
  decide

/-- C3 as amended: the destination clue adds +1 per distinct entry of the
fixed list that occurs (at least once, word-bounded) in the query —
repeating the same destination does not add more, while two distinct
destinations add +2: the score equals the number of listed destinations
present in the query. -/
theorem claim_C3_destination_clue_per_keyword (p : List Char) :
    travelLocationsClue p =
      (travelLocations.filter (fun l => wbSearch l p)).length ∧
    (analyzeContext ⟨[], []⟩ ("tokyo tokyo".toList)).travelNotice = 1 ∧
    (analyzeContext ⟨[], []⟩ ("tokyo and berlin".toList)).travelNotice = 2 := by
  refine ⟨?_, by decide, by decide⟩
  simp only [travelLocationsClue]
  rw [foldl_add_if_eq_filter_length]
  omega

/-- C1 counterexample: when the completion call succeeds and returns text
that parses as JSON but is not a JSON object (for instance `[]`), `route`
does not return a handler at all — `result.get("agent", ...)` raises an
`AttributeError` that the `except json.JSONDecodeError` clause does not
catch, modelled as the `none` result. -/
theorem claim_C1_counterexample :
    ¬ ∃ d : RoutingDecision,
        route ⟨[], []⟩ ("why was my card declined".toList)
          RouteApiResult.okNonObject = some d := by
  intro h
  obtain ⟨d, hd⟩ := h
  simp [route] at hd

/-- C1 as amended: for every query, every context and every completion
outcome other than a successful response parsing to a non-object JSON
value — that is, on transport/API failure, on unparseable JSON, and on
any JSON object — `route` returns exactly one of the four known handler
identifiers and never an error. -/
theorem claim_C1_route_fallback_totality
    (ctx : RouterCtx) (prompt : List Char) (outcome : RouteApiResult)
    (hno : outcome ≠ RouteApiResult.okNonObject) :
    ∃ d : RoutingDecision, route ctx prompt outcome = some d ∧
      d.finalAgent ∈ [Agent.travelNoticeAgent, Agent.transactionAnalysisAgent,
        Agent.cardServicesAgent, Agent.generalInquiryAgent] := by
  cases outcome with
  | apiError msg => exact ⟨_, rfl, by simp⟩
  | okMalformed => exact ⟨_, rfl, by simp⟩
  | okNonObject => exact absurd rfl hno
  | okObject agentField confField =>
      simp only [route]
      cases hfind : agentOfIdent (agentField.getD ("GeneralInquiryAgent".toList)) with
      | none => exact ⟨_, rfl, by simp⟩
      | some sel => exact ⟨_, rfl, by cases sel <;> simp⟩

/-- Witness for C1: a concrete API failure routes to a known handler. -/
theorem claim_C1_route_fallback_totality_witness :
    ∃ d : RoutingDecision,
      route ⟨[], []⟩ ("help".toList)
        (RouteApiResult.apiError ("API error: 500".toList)) = some d ∧
      d.finalAgent ∈ [Agent.travelNoticeAgent, Agent.transactionAnalysisAgent,
        Agent.cardServicesAgent, Agent.generalInquiryAgent] :=
  claim_C1_route_fallback_totality ⟨[], []⟩ ("help".toList)
    (RouteApiResult.apiError ("API error: 500".toList)) (by decide)

/-- C4 counterexample: the parsed `confidence` value is adopted without
being clamped, so a successful response naming a valid agent with
confidence 1.5 puts 1.5 — outside the claimed 0.0-1.0 range — into
`confidence_scores`. -/
theorem claim_C4_counterexample :
    ((route ⟨[], []⟩ ("check my card".toList)
        (RouteApiResult.okObject (some ("CardServicesAgent".toList))
          (some (3/2)))).map
      (fun d => d.confidenceScores Agent.cardServicesAgent)) = some (3/2) ∧
    ¬ ((3 : Rat)/2 ≤ 1) := by
  constructor
  · rfl
  · norm_num

/-- C4 as amended: whenever `route` returns, every handler other than the
selected one has confidence score exactly 0.0, and on transport/API
failure (and likewise on unparseable JSON) the selected handler is
GeneralInquiryAgent with confidence exactly 0.5; the selected handler's
score on a successful parse is the model-reported confidence unchanged
(0.5 when absent or when the reported agent is unrecognised), which is
not constrained to the 0.0-1.0 range. -/
theorem claim_C4_confidence_scores_shape
    (ctx : RouterCtx) (prompt : List Char) (outcome : RouteApiResult)
    (d : RoutingDecision) (hd : route ctx prompt outcome = some d) :
    (∀ a : Agent, a ≠ d.finalAgent → d.confidenceScores a = 0) ∧
    (∀ msg, outcome = RouteApiResult.apiError msg →
      d.finalAgent = Agent.generalInquiryAgent ∧
      d.confidenceScores Agent.generalInquiryAgent = 1/2) ∧
    (outcome = RouteApiResult.okMalformed →
      d.finalAgent = Agent.generalInquiryAgent ∧
      d.confidenceScores Agent.generalInquiryAgent = 1/2) := by
  cases outcome with
  | apiError msg =>
      simp only [route, Option.some.injEq] at hd
      subst hd
      refine ⟨fun a ha => ?_, ?_, ?_⟩
      · simp only [scoresFor, if_neg ha]
      · intro m hm
        exact ⟨rfl, by simp [scoresFor]⟩
      · intro hm
        cases hm
  | okMalformed =>
      simp only [route, Option.some.injEq] at hd
      subst hd
      refine ⟨fun a ha => ?_, ?_, ?_⟩
      · simp only [scoresFor, if_neg ha]
      · intro m hm
        cases hm
      · intro hm
        exact ⟨rfl, by simp [scoresFor]⟩
  | okNonObject => simp [route] at hd
  | okObject agentField confField =>
      simp only [route] at hd
      cases hfind : agentOfIdent (agentField.getD ("GeneralInquiryAgent".toList)) with
      | none =>
          rw [hfind] at hd
          simp only [Option.some.injEq] at hd
          subst hd
          refine ⟨fun a ha => ?_, ?_, ?_⟩
          · simp only [scoresFor, if_neg ha]
          · intro m hm
            cases hm
          · intro hm
            cases hm
      | some sel =>
          rw [hfind] at hd
          simp only [Option.some.injEq] at hd
          subst hd
          refine ⟨fun a ha => ?_, ?_, ?_⟩
          · simp only [scoresFor, if_neg ha]
          · intro m hm
            cases hm
          · intro hm
            cases hm

/-- Witness for C4: a concrete API failure yields the
GeneralInquiryAgent at confidence 0.5 with the other handlers at 0. -/
theorem claim_C4_confidence_scores_shape_witness :
    ((route ⟨[], []⟩ ("help".toList)
        (RouteApiResult.apiError ("boom".toList))).map
      (fun d => d.confidenceScores Agent.travelNoticeAgent)) = some 0 ∧
    ((route ⟨[], []⟩ ("help".toList)
        (RouteApiResult.apiError ("boom".toList))).map
      (fun d => d.finalAgent)) = some Agent.generalInquiryAgent ∧
    ((route ⟨[], []⟩ ("help".toList)
        (RouteApiResult.apiError ("boom".toList))).map
      (fun d => d.confidenceScores Agent.generalInquiryAgent)) = some (1/2) := by
  have h := claim_C4_confidence_scores_shape ⟨[], []⟩ ("help".toList)
    (RouteApiResult.apiError ("boom".toList)) _ rfl
  have h1 := h.1 Agent.travelNoticeAgent (by decide)
  have h2 := (h.2.1 ("boom".toList) rfl).1
  have h3 := (h.2.1 ("boom".toList) rfl).2
  simp only [Option.map, route]
  exact ⟨by simp_all [route], by simp_all [route], by simp_all [route]⟩

/-- C5: on a context whose inferred card status is already
`reported lost`, the `report_lost_stolen` branch takes the
replacement-offer path both times it is called (it reads no state other
than the transactions, and its only status write is to the local
`card_info` dictionary), the second call does not take the
`Report Card Lost/Stolen` action, and its only next-best action is the
replacement offer. -/
theorem claim_C5_idempotent_lost_card_report
    (txs : List Transaction)
    (h : inferredCardStatus txs = ("reported lost".toList)) :
    (processReportLostStolen txs).alreadyReported = true ∧
    (processReportLostStolen txs).alreadyReported = true ∧
    ("Report Card Lost/Stolen".toList) ∉ (processReportLostStolen txs).actionsTaken ∧
    (processReportLostStolen txs).nextBest = [("Order Replacement Card".toList)] := by
  have hcond : (lowerStr (inferredCardStatus txs) = ("reported lost".toList) ||
      lowerStr (inferredCardStatus txs) = ("stolen".toList)) = true := by
    rw [h]
    decide
  simp only [processReportLostStolen, if_pos hcond]
  decide

/-- Witness for C5: a declined transaction whose reason mentions a
stolen card makes the inferred status `reported lost`. -/
theorem claim_C5_idempotent_lost_card_report_witness :
    (processReportLostStolen [⟨("Uber".toList), ("Paris".toList),
        ("Declined".toList), ("Card reported stolen".toList)⟩]).alreadyReported = true ∧
    (processReportLostStolen [⟨("Uber".toList), ("Paris".toList),
        ("Declined".toList), ("Card reported stolen".toList)⟩]).alreadyReported = true ∧
    ("Report Card Lost/Stolen".toList) ∉ (processReportLostStolen
      [⟨("Uber".toList), ("Paris".toList), ("Declined".toList),
        ("Card reported stolen".toList)⟩]).actionsTaken ∧
    (processReportLostStolen [⟨("Uber".toList), ("Paris".toList),
        ("Declined".toList), ("Card reported stolen".toList)⟩]).nextBest =
      [("Order Replacement Card".toList)] :=
  claim_C5_idempotent_lost_card_report
    [⟨("Uber".toList), ("Paris".toList), ("Declined".toList),
      ("Card reported stolen".toList)⟩] (by decide)

/-- C7 counterexample: the query `activate travel notice` contains the
activation keyword `activate`, yet `_determine_intent` classifies it as
`check_status`, not `activate_notice`: the branch guard `pass`es when the
query contains the substring `activate travel` and none of `fix`,
`enable`, `confirm`. -/
theorem claim_C7_counterexample :
    wbSearch ("activate".toList)
      (lowerStr ("activate travel notice".toList)) = true ∧
    determineTNIntent ("activate travel notice".toList) ≠ TNIntent.activateNotice ∧
    determineTNIntent ("activate travel notice".toList) = TNIntent.checkStatus := by
  decide

/-- C7 as amended: `_determine_intent` maps every query to exactly one of
the four intents by precedence activate > create > update > default
check_status, except that a query containing the substring
`activate travel` and none of the substrings `fix`, `enable`, `confirm`
skips the activation branch; outside that carve-out, any query containing
an activation keyword (activate, fix, enable, reactivate) is classified
as `activate_notice`. -/
theorem claim_C7_intent_precedence
    (p : List Char)
    (hk : wbSearch ("activate".toList) (lowerStr p) = true ∨
          wbSearch ("fix".toList) (lowerStr p) = true ∨
          wbSearch ("enable".toList) (lowerStr p) = true ∨
          wbSearch ("reactivate".toList) (lowerStr p) = true)
    (hcarve : activateTravelCarveOut (lowerStr p) = false) :
    determineTNIntent p = TNIntent.activateNotice ∧
    ∀ q : List Char,
      determineTNIntent q = TNIntent.activateNotice ∨
      determineTNIntent q = TNIntent.createNotice ∨
      determineTNIntent q = TNIntent.updateNotice ∨
      determineTNIntent q = TNIntent.checkStatus := by
  constructor
  · have hany : activateAlts.any (fun a => wbSearch a (lowerStr p)) = true := by
      rw [List.any_eq_true]
      rcases hk with h | h | h | h
      · exact ⟨("activate".toList), by decide, h⟩
      · exact ⟨("fix".toList), by decide, h⟩
      · exact ⟨("enable".toList), by decide, h⟩
      · exact ⟨("reactivate".toList), by decide, h⟩
    simp only [determineTNIntent, hany, hcarve, Bool.not_false, Bool.and_true,
      if_pos]
  · intro q
    cases h : determineTNIntent q with
    | activateNotice => exact Or.inl rfl
    | createNotice => exact Or.inr (Or.inl rfl)
    | updateNotice => exact Or.inr (Or.inr (Or.inl rfl))
    | checkStatus => exact Or.inr (Or.inr (Or.inr rfl))

/-- Witness for C7: a concrete `fix`-keyword query is classified as
`activate_notice`. -/
theorem claim_C7_intent_precedence_witness :
    determineTNIntent ("please fix my notice".toList) = TNIntent.activateNotice ∧
    ∀ q : List Char,
      determineTNIntent q = TNIntent.activateNotice ∨
      determineTNIntent q = TNIntent.createNotice ∨
      determineTNIntent q = TNIntent.updateNotice ∨
      determineTNIntent q = TNIntent.checkStatus :=
  claim_C7_intent_precedence ("please fix my notice".toList)
    (Or.inr (Or.inl (by decide))) (by decide)

/-- C8 counterexample: a transaction whose decline reason is exactly the
word `lost` does not flip the inferred card status — the code looks for
the substrings `card reported lost` or `stolen`, not the word `lost`. -/
theorem claim_C8_counterexample :
    isSubstr ("lost".toList)
      (lowerStr ("lost".toList)) = true ∧
    inferredCardStatus [⟨("Shop".toList), ("Paris".toList),
      ("Declined".toList), ("lost".toList)⟩] = ("active".toList) ∧
    inferredCardStatus [⟨("Shop".toList), ("Paris".toList),
      ("Declined".toList), ("lost".toList)⟩] ≠ ("reported lost".toList) := by
  decide

/-- C8 as amended: the card status is inferred, never stored — it is
`reported lost` exactly when some transaction's lowered reason contains
the substring `card reported lost` or the substring `stolen`, and
`active` otherwise. -/
theorem claim_C8_inferred_card_status (txs : List Transaction) :
    (inferredCardStatus txs = ("reported lost".toList) ↔
      ∃ tx ∈ txs,
        isSubstr ("card reported lost".toList) (lowerStr tx.reason) = true ∨
        isSubstr ("stolen".toList) (lowerStr tx.reason) = true) ∧
    (inferredCardStatus txs = ("reported lost".toList) ∨
      inferredCardStatus txs = ("active".toList)) := by
  unfold inferredCardStatus
  by_cases h : txs.any (fun tx =>
      isSubstr ("card reported lost".toList) (lowerStr tx.reason) ||
      isSubstr ("stolen".toList) (lowerStr tx.reason)) = true
  · rw [if_pos h]
    rw [List.any_eq_true] at h
    obtain ⟨tx, htx, hor⟩ := h
    rw [Bool.or_eq_true] at hor
    exact ⟨⟨fun _ => ⟨tx, htx, hor⟩, fun _ => rfl⟩, Or.inl rfl⟩
  · rw [if_neg h]
    constructor
    · constructor
      · intro hcontra
        exact absurd hcontra (by decide)
      · intro ⟨tx, htx, hor⟩
        refine absurd (List.any_eq_true.mpr ⟨tx, htx, ?_⟩) h
        rw [Bool.or_eq_true]
        exact hor
    · exact Or.inr rfl

/-- C9: in `analyze_with_groq`, whenever the sentiment stage fails or
returns unparseable JSON the sentiment result is exactly the NEUTRAL /
0.5 / empty-lists default (whether or not the handler stage raised), and
whenever the action stage fails or returns unparseable JSON the
recommended actions are exactly the single Follow-up Call / High /
Customer Support action, so the analysis still returns a complete
structured result. -/
theorem claim_C9_orchestrator_fallbacks
    (t : List Char) (sentimentStage : StageResult SentimentResult)
    (agentRaises : Bool) (actionStage : StageResult (List RecommendedAction))
    (ht : t.all isPySpace = false) :
    (sentimentStage.isFailed = true →
      (analyzeWithGroq t sentimentStage agentRaises actionStage).1 =
        some defaultSentiment) ∧
    (actionStage.isFailed = true →
      (analyzeWithGroq t sentimentStage agentRaises actionStage).2 =
        [followUpCallAction]) := by
  constructor
  · intro hs
    cases sentimentStage with
    | failure e => cases agentRaises <;> simp [analyzeWithGroq, ht]
    | badJson => cases agentRaises <;> simp [analyzeWithGroq, ht]
    | success v => simp [StageResult.isFailed] at hs
  · intro ha
    cases actionStage with
    | failure e => simp [analyzeWithGroq, ht]
    | badJson => simp [analyzeWithGroq, ht]
    | success v => simp [StageResult.isFailed] at ha

/-- Witness for C9: a concrete non-blank transcript with a bad-JSON
sentiment stage and a failed action stage. -/
theorem claim_C9_orchestrator_fallbacks_witness :
    (analyzeWithGroq ("Customer: help".toList) StageResult.badJson false
      (StageResult.failure ("Network error".toList))).1 =
        some defaultSentiment ∧
    (analyzeWithGroq ("Customer: help".toList) StageResult.badJson false
      (StageResult.failure ("Network error".toList))).2 =
        [followUpCallAction] := by
  have h := claim_C9_orchestrator_fallbacks ("Customer: help".toList)
    StageResult.badJson false (StageResult.failure ("Network error".toList))
    (by decide)
  exact ⟨h.1 (by decide), h.2 (by decide)⟩

/-- C10: when the travel notice has a non-empty country list but a
missing start or end date, or a date that `strptime` cannot parse in the
`%B %d, %Y` format, `_check_active_notice` reports the notice active no
matter what its status string or its actual dates say. -/
theorem claim_C10_active_on_missing_or_bad_dates
    (today : Date) (tn : TravelNotice)
    (hcs : tn.countries ≠ [])
    (hbad : tn.travelStart = [] ∨ tn.travelEnd = [] ∨
            parseNoticeDate tn.travelStart = none ∨
            parseNoticeDate tn.travelEnd = none) :
    checkActiveNotice today tn = true := by
  have hne : tn.countries.isEmpty = false := by
    cases hh : tn.countries.isEmpty
    · rfl
    · exact absurd (List.isEmpty_iff.mp hh) hcs
  unfold checkActiveNotice
  rw [hne]
  simp only [Bool.false_eq_true, if_false, Bool.not_false]
  by_cases hdates : (tn.travelStart.isEmpty || tn.travelEnd.isEmpty) = true
  · rw [if_pos hdates]
  · rw [if_neg hdates]
    rw [Bool.or_eq_true] at hdates
    push_neg at hdates
    rcases hbad with h | h | h | h
    · exact absurd (by rw [h]; rfl) hdates.1
    · exact absurd (by rw [h]; rfl) hdates.2
    · rw [h]
    · cases hps : parseNoticeDate tn.travelStart with
      | none => rfl
      | some sd => rw [h]

/-- Witness for C10: a notice for France whose start date is the
unparseable string `soon`, with a status that is neither active nor
submitted, still counts as active. -/
theorem claim_C10_active_on_missing_or_bad_dates_witness :
    checkActiveNotice ⟨2025, 1, 1⟩
      ⟨[("France".toList)], ("soon".toList), ("June 10, 2025".toList),
        some ("Cancelled".toList)⟩ = true :=
  claim_C10_active_on_missing_or_bad_dates ⟨2025, 1, 1⟩
    ⟨[("France".toList)], ("soon".toList), ("June 10, 2025".toList),
      some ("Cancelled".toList)⟩ (by decide) (Or.inr (Or.inr (Or.inl (by decide))))

theorem checkActiveNotice_set_active (today : Date) (tn : TravelNotice)
    (h : checkActiveNotice today tn = true) :
    checkActiveNotice today { tn with status := some ("Active".toList) } = true := by
  unfold checkActiveNotice at h ⊢
  simp only at h ⊢
  by_cases hcs : tn.countries.isEmpty = true
  · rw [if_pos hcs] at h
    exact absurd h (by decide)
  · rw [if_neg hcs] at h ⊢
    by_cases hd : (tn.travelStart.isEmpty || tn.travelEnd.isEmpty) = true
    · rw [if_pos hd] at h ⊢
      exact h
    · rw [if_neg hd] at h ⊢
      cases hps : parseNoticeDate tn.travelStart with
      | none =>
          rw [hps] at h
          exact h
      | some sd =>
          rw [hps] at h
          cases hpe : parseNoticeDate tn.travelEnd with
          | none =>
              rw [hpe] at h
              exact h
          | some ed =>
              rw [hpe] at h
              have h2 : ((sd.le today && today.le ed || today.lt sd) &&
                  (isSubstr ("active".toList)
                      (lowerStr (tn.status.getD ("Unknown".toList))) ||
                    isSubstr ("submitted".toList)
                      (lowerStr (tn.status.getD ("Unknown".toList))))) = true := h
              have ht := ((Bool.and_eq_true _ _).mp h2).1
              show ((sd.le today && today.le ed || today.lt sd) &&
                  (isSubstr ("active".toList)
                      (lowerStr ((some ("Active".toList)).getD ("Unknown".toList))) ||
                    isSubstr ("submitted".toList)
                      (lowerStr ((some ("Active".toList)).getD ("Unknown".toList))))) = true
              rw [Bool.and_eq_true]
              exact ⟨ht, by decide⟩

/-- C6: on a context whose travel-notice status is exactly the
system-error string and whose notice passes the active check, an
`activate_notice` call takes the fix branch and mutates the context's
status in place to `Active`; an immediately following `check_status` call
on the mutated context reports the notice as active with no further
activation fix offered (the `Fix & Activate Notice` action is not
emitted). -/
theorem claim_C6_notice_activation_mutation
    (today : Date) (txs : List Transaction) (tn : TravelNotice)
    (p1 p2 : List Char)
    (h1 : determineTNIntent p1 = TNIntent.activateNotice)
    (h2 : determineTNIntent p2 = TNIntent.checkStatus)
    (hs : tn.status = some sysErrStatus)
    (ha : checkActiveNotice today tn = true) :
    (processTravelRuleBased today txs tn p1).resp = TNResponse.activatedFix ∧
    (processTravelRuleBased today txs tn p1).notice =
      { tn with status := some ("Active".toList) } ∧
    (processTravelRuleBased today txs
        (processTravelRuleBased today txs tn p1).notice p2).resp =
      TNResponse.statusActiveOk ∧
    ("Fix & Activate Notice".toList) ∉ (processTravelRuleBased today txs
        (processTravelRuleBased today txs tn p1).notice p2).nextBest := by
  have hactiveA : checkActiveNotice today
      { tn with status := some (['A', 'c', 't', 'i', 'v', 'e']) } = true :=
    checkActiveNotice_set_active today tn ha
  have hlow : lowerStr (['A', 'c', 't', 'i', 'v', 'e']) =
      (['a', 'c', 't', 'i', 'v', 'e']) := by decide
  have hfirst : (processTravelRuleBased today txs tn p1).resp =
      TNResponse.activatedFix ∧
      (processTravelRuleBased today txs tn p1).notice =
        { tn with status := some ("Active".toList) } := by
    by_cases hm : mismatchFound tn.countries txs = true
    · constructor <;> simp [processTravelRuleBased, h1, ha, hs, hm, hlow]
    · constructor <;> simp [processTravelRuleBased, h1, ha, hs, hm, hlow]
  have hsecond : (processTravelRuleBased today txs
        ({ tn with status := some ("Active".toList) } : TravelNotice) p2).resp =
      TNResponse.statusActiveOk ∧
      ("Fix & Activate Notice".toList) ∉ (processTravelRuleBased today txs
        ({ tn with status := some ("Active".toList) } : TravelNotice) p2).nextBest := by
    by_cases hm : mismatchFound tn.countries txs = true
    · constructor <;> simp [processTravelRuleBased, h2, hactiveA, hm, hlow, sysErrStatus]
    · constructor <;> simp [processTravelRuleBased, h2, hactiveA, hm, hlow, sysErrStatus]
  refine ⟨hfirst.1, hfirst.2, ?_, ?_⟩
  · rw [hfirst.2]
    exact hsecond.1
  · rw [hfirst.2]
    exact hsecond.2

/-- Witness for C6: a France notice in the system-error state with a
future date range, a fix request followed by a status request. -/
theorem claim_C6_notice_activation_mutation_witness :
    (processTravelRuleBased ⟨2025, 6, 1⟩ []
      ⟨[("France".toList)], ("June 10, 2025".toList), ("June 20, 2025".toList),
        some sysErrStatus⟩ ("please fix my travel notice".toList)).resp =
      TNResponse.activatedFix ∧
    (processTravelRuleBased ⟨2025, 6, 1⟩ []
      ⟨[("France".toList)], ("June 10, 2025".toList), ("June 20, 2025".toList),
        some sysErrStatus⟩ ("please fix my travel notice".toList)).notice =
      { countries := [("France".toList)], travelStart := ("June 10, 2025".toList),
        travelEnd := ("June 20, 2025".toList), status := some ("Active".toList) } ∧
    (processTravelRuleBased ⟨2025, 6, 1⟩ []
      (processTravelRuleBased ⟨2025, 6, 1⟩ []
        ⟨[("France".toList)], ("June 10, 2025".toList), ("June 20, 2025".toList),
          some sysErrStatus⟩ ("please fix my travel notice".toList)).notice
      ("what is my travel notice status".toList)).resp =
      TNResponse.statusActiveOk ∧
    ("Fix & Activate Notice".toList) ∉ (processTravelRuleBased ⟨2025, 6, 1⟩ []
      (processTravelRuleBased ⟨2025, 6, 1⟩ []
        ⟨[("France".toList)], ("June 10, 2025".toList), ("June 20, 2025".toList),
          some sysErrStatus⟩ ("please fix my travel notice".toList)).notice
      ("what is my travel notice status".toList)).nextBest :=
  claim_C6_notice_activation_mutation ⟨2025, 6, 1⟩ []
    ⟨[("France".toList)], ("June 10, 2025".toList), ("June 20, 2025".toList),
      some sysErrStatus⟩
    ("please fix my travel notice".toList)
    ("what is my travel notice status".toList)
    (by decide) (by decide) rfl (by decide)
